import Mathlib

/-!
Shallow embedding of the billbot invoice payment lifecycle:
the DynamoDB-backed invoice table, the webhook status updater
(`lambda_functions/status_updater/app.py`), the payment scheduler
(`src/payment_scheduler/scheduler.py`) and the Stripe amount conversion
(`src/payment_scheduler/stripe_client.py`).

External effects are made explicit:
* the DynamoDB table is a list of invoice items threaded through each
  operation;
* store failures (ClientError on a query or an update) are boolean
  oracles;
* the Stripe gateway is an oracle from the request actually built by the
  code to a `PaymentResult`;
* timestamps (`datetime.utcnow()` / `datetime.now()`) are parameters.
-/

namespace BillBot

/-- An item of the DynamoDB invoice table.  Items are duck-typed dicts in
the source; every attribute except the primary key is optional.  The
attribute names are those used by the code. -/
structure Invoice where
  processed_invoice_uuid : String
  vendor_name : Option String := none
  invoice_id : Option String := none
  total_amount : Option String := none
  currency : Option String := none
  due_date : Option String := none
  processing_status : Option String := none
  payment_intent_id : Option String := none
  error_message : Option String := none
  last_updated : Option String := none
  payment_succeeded_at : Option String := none
deriving Repr, DecidableEq

/-- Python truthiness of an optional string (`if not x:` is taken for
`None` and for the empty string). -/
def truthy : Option String → Bool
  | none => false
  | some s => !s.isEmpty

/-- A fresh item holding only the primary key, as created by a DynamoDB
`update_item` on an absent key. -/
def emptyInvoice (u : String) : Invoice :=
  { processed_invoice_uuid := u }

/-- DynamoDB `update_item` on key `u` applying the SET expression `f`:
updates the matching item, or creates one when the key is absent. -/
def updateItem (t : List Invoice) (u : String) (f : Invoice → Invoice) : List Invoice :=
  if t.any (fun i => i.processed_invoice_uuid == u) then
    t.map (fun i => if i.processed_invoice_uuid == u then f i else i)
  else
    t ++ [f (emptyInvoice u)]

/-- The SET expression of the status updater lambda
(`SET processing_status = PAID, last_updated = ts, payment_succeeded_at = ts`). -/
def paidSet (ts : String) (i : Invoice) : Invoice :=
  { i with
    processing_status := some "PAID"
    last_updated := some ts
    payment_succeeded_at := some ts }

/-- Result dict of `update_invoice_status` / `process_webhook_event` in
the status updater lambda. -/
structure ReconResult where
  success : Bool
  message : Option String := none
  error : Option String := none
  processed_invoice_uuid : Option String := none
  payment_intent_id : Option String := none
  action : Option String := none
deriving Repr, DecidableEq

/-- Environment and store behaviour of the status updater lambda:
whether `DYNAMODB_TABLE_NAME` is set, and whether the GSI query and the
`update_item` call raise a `ClientError`. -/
structure ReconEnv where
  tableNameSet : Bool
  queryOk : Bool
  updateOk : Bool
deriving Repr, DecidableEq

/-- `update_invoice_status` of `status_updater/app.py`: look the invoice
up by `payment_intent_id` on the `PaymentIntentIndex` GSI and set its
status to PAID.  Returns the result dict, the updated table, and the
list of payment references looked up in the store. -/
def update_invoice_status (env : ReconEnv) (table : List Invoice)
    (pid : String) (ts : String) :
    ReconResult × List Invoice × List String :=
  if !env.tableNameSet then
    ({ success := false
       error := some "DYNAMODB_TABLE_NAME environment variable not set" },
     table, [])
  else if !env.queryOk then
    ({ success := false
       error := some "DynamoDB error"
       payment_intent_id := some pid }, table, [pid])
  else
    match (table.filter (fun i => i.payment_intent_id == some pid)).head? with
    | none =>
      ({ success := false
         error := some ("No invoice found for payment_intent_id: " ++ pid)
         payment_intent_id := some pid }, table, [pid])
    | some invoice =>
      if !env.updateOk then
        ({ success := false
           error := some "DynamoDB error"
           payment_intent_id := some pid }, table, [pid])
      else
        ({ success := true
           message := some "Invoice status updated to PAID"
           processed_invoice_uuid := some invoice.processed_invoice_uuid
           payment_intent_id := some pid
           action := some "updated" },
         updateItem table invoice.processed_invoice_uuid (paidSet ts), [pid])

/-- A (verified) Stripe webhook event, as consumed by
`process_webhook_event`: its type and the payment intent it refers to. -/
structure StripeEvent where
  type : String
  payment_intent_id : String
deriving Repr, DecidableEq

/-- `process_webhook_event` of `status_updater/app.py`: ignore every
event type except `payment_intent.succeeded`, else reconcile by payment
reference. -/
def process_webhook_event (env : ReconEnv) (table : List Invoice)
    (ev : StripeEvent) (ts : String) :
    ReconResult × List Invoice × List String :=
  if ev.type != "payment_intent.succeeded" then
    ({ success := true
       message := some ("Event type " ++ ev.type ++
         " ignored (not payment_intent.succeeded)")
       action := some "ignored" }, table, [])
  else
    update_invoice_status env table ev.payment_intent_id ts

/-- ASCII lower-casing of a character, as Python's `str.lower()` acts
on the ASCII header names in scope. -/
def lowerChar (c : Char) : Char :=
  if 'A' ≤ c ∧ c ≤ 'Z' then Char.ofNat (c.toNat + 32) else c

/-- ASCII lower-casing of a string (`key.lower()` on header names). -/
def asciiLower (s : String) : String := String.mk (s.data.map lowerChar)

/-- Case-insensitive lookup of the `Stripe-Signature` header (first
match wins, as in the source's loop over `headers.items()`). -/
def findSignature : List (String × String) → Option String
  | [] => none
  | (k, v) :: rest =>
    if asciiLower k == "stripe-signature" then some v else findSignature rest

/-- `verify_webhook_signature`: returns `none` when the signing secret
is not configured, otherwise defers to Stripe's `construct_event`
(modelled as an oracle from payload, signature and secret to an
optional parsed event). -/
def verify_webhook_signature (secret : Option String)
    (construct : String → String → String → Option StripeEvent)
    (payload sig : String) : Option StripeEvent :=
  match secret with
  | none => none
  | some sec => construct payload sig sec

/-- HTTP response of the lambda handler: status code plus the `message`
and `error` fields of the JSON body. -/
structure HttpResponse where
  statusCode : Nat
  message : Option String := none
  error : Option String := none
deriving Repr, DecidableEq

/-- `lambda_handler` of `status_updater/app.py`: extract the signature
header (missing or empty ⇒ 400), verify it (invalid ⇒ 400), then
process the event; both processing outcomes are acknowledged with 200.
Returns the response, the resulting table and the store lookups made. -/
def lambda_handler (secret : Option String)
    (construct : String → String → String → Option StripeEvent)
    (env : ReconEnv) (headers : List (String × String)) (body : String)
    (table : List Invoice) (ts : String) :
    HttpResponse × List Invoice × List String :=
  match findSignature headers with
  | none =>
    ({ statusCode := 400, error := some "Missing Stripe-Signature header" },
     table, [])
  | some sig =>
    if sig.isEmpty then
      ({ statusCode := 400, error := some "Missing Stripe-Signature header" },
       table, [])
    else
      match verify_webhook_signature secret construct body sig with
      | none =>
        ({ statusCode := 400, error := some "Invalid webhook signature" },
         table, [])
      | some ev =>
        let out := process_webhook_event env table ev ts
        if out.1.success then
          ({ statusCode := 200, message := some "Webhook processed successfully" },
           out.2.1, out.2.2)
        else
          ({ statusCode := 200
             message := some "Webhook acknowledged but processing failed"
             error := out.1.error }, out.2.1, out.2.2)

/-- `PaymentResult` of `stripe_client.py`. -/
structure PaymentResult where
  success : Bool
  payment_intent_id : Option String := none
  status : Option String := none
  error_message : Option String := none
deriving Repr, DecidableEq

/-- The request `_process_single_payment` hands to the Stripe client
(`create_payment_intent` / `create_test_payment_intent`): the invoice
fields with their `.get` defaults, plus the built description. -/
structure GatewayReq where
  amount : String
  currency : String
  vendor_name : String
  invoice_id : String
  processed_invoice_uuid : String
  description : String
deriving Repr, DecidableEq

/-- Builds the gateway request for an invoice exactly as
`_process_single_payment` does. -/
def mkReq (urgent : Bool) (i : Invoice) : GatewayReq :=
  { amount := i.total_amount.getD ""
    currency := i.currency.getD "USD"
    vendor_name := i.vendor_name.getD "Unknown Vendor"
    invoice_id := i.invoice_id.getD "Unknown Invoice"
    processed_invoice_uuid := i.processed_invoice_uuid
    description :=
      (if urgent then "URGENT " else "") ++ "Payment for invoice " ++
        i.invoice_id.getD "Unknown Invoice" ++ " (due " ++
        i.due_date.getD "Unknown" ++ ")" }

/-- The SET expression of the scheduler's `_update_invoice_status`:
always sets `processing_status` and `last_updated`; sets
`payment_intent_id` / `error_message` only when the optional argument is
truthy. -/
def schedSet (new_status ts : String) (pid err : Option String)
    (i : Invoice) : Invoice :=
  { i with
    processing_status := some new_status
    last_updated := some ts
    payment_intent_id := if truthy pid then pid else i.payment_intent_id
    error_message := if truthy err then err else i.error_message }

/-- `PaymentScheduler._update_invoice_status`: a `ClientError` on the
`update_item` call (the `wr` oracle, per key) is caught and reported as
`False` with the table unchanged; otherwise the update is applied and
`True` returned. -/
def sched_update_invoice_status (wr : String → Bool) (table : List Invoice)
    (u new_status : String) (pid err : Option String) (ts : String) :
    Bool × List Invoice :=
  if wr u then
    (true, updateItem table u (schedSet new_status ts pid err))
  else
    (false, table)

/-- The per-record result dict of `_process_single_payment`. -/
structure SingleResult where
  success : Bool
  error : Option String := none
  payment_intent_id : Option String := none
  invoice_uuid : Option String := none
deriving Repr, DecidableEq

/-- `PaymentScheduler._process_single_payment`: validate the amount,
call the gateway, record the outcome.  The boolean returned by
`_update_invoice_status` is discarded, as in the source.  Returns the
result dict, the resulting table, and the gateway requests issued. -/
def process_single_payment (gw : GatewayReq → PaymentResult)
    (wr : String → Bool) (urgent : Bool) (ts : String)
    (table : List Invoice) (i : Invoice) :
    SingleResult × List Invoice × List GatewayReq :=
  if !truthy i.total_amount then
    ({ success := false
       error := some ("Missing total_amount for invoice " ++
         i.processed_invoice_uuid) }, table, [])
  else
    let req := mkReq urgent i
    let pr := gw req
    if pr.success then
      let t2 := (sched_update_invoice_status wr table
        i.processed_invoice_uuid "PAYMENT_INITIATED"
        pr.payment_intent_id none ts).2
      ({ success := true
         payment_intent_id := pr.payment_intent_id
         invoice_uuid := some i.processed_invoice_uuid }, t2, [req])
    else
      let t2 := (sched_update_invoice_status wr table
        i.processed_invoice_uuid "PAYMENT_FAILED"
        none pr.error_message ts).2
      ({ success := false
         error := some ("Stripe payment failed for " ++
           i.processed_invoice_uuid ++ ": " ++
           pr.error_message.getD "None") }, t2, [req])

/-- Per-pass counters of the scheduler (`processed` / `successful` /
`failed` / `errors`). -/
structure PassResult where
  processed : Nat
  successful : Nat
  failed : Nat
  errors : List String
deriving Repr, DecidableEq

/-- The zero-initialised counters of a pass. -/
def emptyPass : PassResult :=
  { processed := 0, successful := 0, failed := 0, errors := [] }

/-- Folds one per-record outcome into the counters of the remaining
records, matching the loop body of the passes. -/
def addOutcome (r : SingleResult) (p : PassResult) : PassResult :=
  { processed := p.processed + 1
    successful := p.successful + (if r.success then 1 else 0)
    failed := p.failed + (if r.success then 0 else 1)
    errors := (if r.success then [] else [r.error.getD "None"]) ++ p.errors }

/-- The processing loop shared by both passes: run
`_process_single_payment` on each selected invoice, threading the table
and accumulating counters and gateway requests. -/
def processList (gw : GatewayReq → PaymentResult) (wr : String → Bool)
    (urgent : Bool) (ts : String) :
    List Invoice → List Invoice →
      PassResult × List Invoice × List GatewayReq
  | [], table => (emptyPass, table, [])
  | i :: rest, table =>
    let s := process_single_payment gw wr urgent ts table i
    let r := processList gw wr urgent ts rest s.2.1
    (addOutcome s.1 r.1, r.2.1, s.2.2 ++ r.2.2)

/-- `_query_invoices_by_status_and_due_date`: GSI query with equal
status and due date keys; a `ClientError` (the `ok` flag) is caught and
an empty list returned. -/
def queryEq (table : List Invoice) (status due : String) (ok : Bool) :
    List Invoice :=
  if ok then
    table.filter (fun i =>
      i.processing_status == some status && i.due_date == some due)
  else []

/-- `_query_invoices_by_status_and_due_date_range`: GSI query with a
`between` condition on the due date (inclusive, lexicographic on the
`YYYY-MM-DD` strings); a `ClientError` is caught and an empty list
returned. -/
def queryRange (table : List Invoice) (status startD endD : String)
    (ok : Bool) : List Invoice :=
  if ok then
    table.filter (fun i =>
      i.processing_status == some status &&
        match i.due_date with
        | some d => decide (startD ≤ d) && decide (d ≤ endD)
        | none => false)
  else []

/-- Oracles of a scheduler run: the gateway, the per-key `update_item`
outcome, and whether each of the two selection queries raises a
`ClientError`. -/
structure SchedEnv where
  gw : GatewayReq → PaymentResult
  wr : String → Bool
  urgentQueryOk : Bool
  batchQueryOk : Bool

/-- The selection of the urgent pass: RECEIVED invoices due today. -/
def urgentSelection (e : SchedEnv) (table : List Invoice) (today : String) :
    List Invoice :=
  queryEq table "RECEIVED" today e.urgentQueryOk

/-- `PaymentScheduler._process_urgent_payments`. -/
def process_urgent_payments (e : SchedEnv) (today ts : String)
    (table : List Invoice) :
    PassResult × List Invoice × List GatewayReq :=
  processList e.gw e.wr true ts (urgentSelection e table today) table

/-- The batch-pass query result: RECEIVED invoices due in
`[today, endD]`. -/
def batchQueryResult (e : SchedEnv) (table : List Invoice)
    (today endD : String) : List Invoice :=
  queryRange table "RECEIVED" today endD e.batchQueryOk

/-- The records the batch pass actually processes: the query result
minus the records due today (the loop's `continue`). -/
def batchWork (e : SchedEnv) (table : List Invoice) (today endD : String) :
    List Invoice :=
  (batchQueryResult e table today endD).filter
    (fun i => !(i.due_date == some today))

/-- `PaymentScheduler._process_batch_payments`.  `endD` stands for
`today + timedelta(days=payment_window_days)` rendered as
`YYYY-MM-DD`. -/
def process_batch_payments (e : SchedEnv) (today endD ts : String)
    (table : List Invoice) :
    PassResult × List Invoice × List GatewayReq :=
  processList e.gw e.wr false ts (batchWork e table today endD) table

/-- The summary dict of `run_payment_cycle`. -/
structure CycleResult where
  urgent : PassResult
  batch : PassResult
  total_processed : Nat
  total_successful : Nat
  total_failed : Nat
deriving Repr, DecidableEq

/-- `PaymentScheduler.run_payment_cycle`: the urgent pass followed by
the batch pass on the resulting table, plus summary totals.  `todayU`
and `todayB` are the two separate `datetime.now()` readings of the two
passes; `endD` is the end of the batch window. -/
def run_payment_cycle (e : SchedEnv) (todayU todayB endD ts : String)
    (table : List Invoice) :
    CycleResult × List Invoice × List GatewayReq :=
  let u := process_urgent_payments e todayU ts table
  let b := process_batch_payments e todayB endD ts u.2.1
  ({ urgent := u.1
     batch := b.1
     total_processed := u.1.processed + b.1.processed
     total_successful := u.1.successful + b.1.successful
     total_failed := u.1.failed + b.1.failed },
   b.2.1, u.2.2 ++ b.2.2)

/-- Numeric value of a decimal digit character. -/
def digitVal (c : Char) : Option Nat :=
  if '0' ≤ c ∧ c ≤ '9' then some (c.toNat - 48) else none

/-- Parses a non-empty digit run into a natural number. -/
def parseDigitsAux : List Char → Nat → Option Nat
  | [], acc => some acc
  | c :: cs, acc =>
    match digitVal c with
    | some d => parseDigitsAux cs (acc * 10 + d)
    | none => none

/-- Parses a non-empty digit run into a natural number (`none` on an
empty or non-digit input). -/
def parseDigits (l : List Char) : Option Nat :=
  if l.isEmpty then none else parseDigitsAux l 0

/-- Splits a character list at the first dot. -/
def splitDot : List Char → List Char × Option (List Char)
  | [] => ([], none)
  | c :: cs =>
    if c = '.' then ([], some cs)
    else
      let r := splitDot cs
      (c :: r.1, r.2)

/-- Exact rational value denoted by a plain decimal string
`digits[.digits]`, the shape of the stored `total_amount` values
(e.g. `453.53`). -/
def parseDecimal (s : String) : Option ℚ :=
  match splitDot s.toList with
  | (a, none) => (parseDigits a).map (fun n => (n : ℚ))
  | (a, some b) =>
    match parseDigits a, parseDigits b with
    | some n, some f => some ((n : ℚ) + (f : ℚ) / (10 : ℚ) ^ b.length)
    | _, _ => none

/-- Floor of a non-negative rational, as an integer. -/
def ratFloorNN (q : ℚ) : ℤ := q.num / (q.den : ℤ)

/-- Round a non-negative rational to the nearest integer, ties to even
(the IEEE-754 rounding of the final significand). -/
def roundHalfEven (q : ℚ) : ℤ :=
  let n := ratFloorNN q
  let f := q - (n : ℚ)
  if f < 1 / 2 then n
  else if 1 / 2 < f then n + 1
  else if n % 2 = 0 then n else n + 1

/-- Number of halvings needed to bring a rational `≥ 1` below 2, i.e.
its floor base-2 logarithm (fuel-bounded structural recursion so the
kernel can evaluate it). -/
def expNat : Nat → ℚ → Nat
  | 0, _ => 0
  | fuel + 1, q => if q < 2 then 0 else expNat fuel (q / 2) + 1

/-- Number of doublings needed to bring a positive rational `< 1` up to
at least 1, i.e. the negated floor base-2 logarithm. -/
def expNeg : Nat → ℚ → Nat
  | 0, _ => 0
  | fuel + 1, q => if 1 ≤ q then 0 else expNeg fuel (q * 2) + 1

/-- Rounds a positive rational to the nearest IEEE-754 binary64 value
(53-bit significand, round-to-nearest ties-to-even), for values in the
normal range. -/
def flPos (q : ℚ) : ℚ :=
  if 1 ≤ q then
    let e := expNat 300 q
    if e ≤ 52 then
      (roundHalfEven (q * 2 ^ (52 - e)) : ℚ) / (2 : ℚ) ^ (52 - e)
    else
      (roundHalfEven (q / 2 ^ (e - 52)) : ℚ) * (2 : ℚ) ^ (e - 52)
  else
    let k := expNeg 300 q
    (roundHalfEven (q * 2 ^ (52 + k)) : ℚ) / (2 : ℚ) ^ (52 + k)

/-- Rounds a rational to the nearest binary64 value (normal range). -/
def fl (q : ℚ) : ℚ :=
  if q = 0 then 0
  else if q < 0 then -flPos (-q)
  else flPos q

/-- Python `float(s)` on a decimal string: the exact decimal value,
correctly rounded to binary64. -/
def pyFloat (s : String) : Option ℚ := (parseDecimal s).map fl

/-- Python binary64 multiplication: the exact product, correctly
rounded. -/
def pyMulFloat (x y : ℚ) : ℚ := fl (x * y)

/-- Python `int()` on a binary64 value: truncation toward zero. -/
def pyTrunc (q : ℚ) : ℤ :=
  if q < 0 then -ratFloorNN (-q) else ratFloorNN q

/-- `amount_cents = int(float(amount) * 100)` from
`StripePaymentClient.create_payment_intent` (and, identically,
`create_test_payment_intent`): the integer number of cents the
scheduler passes to Stripe for a stored amount string. -/
def amount_cents (s : String) : Option ℤ :=
  (pyFloat s).map (fun x => pyTrunc (pyMulFloat x 100))

/-- The primary key together with the due date of an item — the two
attributes no SET expression of this subsystem ever touches. -/
def keyDue (i : Invoice) : String × Option String :=
  (i.processed_invoice_uuid, i.due_date)

/-- Whether `_process_single_payment` reports success for an invoice:
the amount is present and the gateway accepts the request. -/
def succPred (gw : GatewayReq → PaymentResult) (urgent : Bool)
    (i : Invoice) : Bool :=
  truthy i.total_amount && (gw (mkReq urgent i)).success

/-! Concrete fixtures used to evaluate the embedded code on specific
inputs. -/

/-- A status-updater environment with the table configured and a
healthy store. -/
def env0 : ReconEnv := { tableNameSet := true, queryOk := true, updateOk := true }

/-- An invoice that is already PAID, with its payment reference and the
timestamp of its first PAID transition. -/
def paidInv : Invoice :=
  { processed_invoice_uuid := "inv-1"
    vendor_name := some "Acme"
    invoice_id := some "A-1"
    total_amount := some "453.53"
    currency := some "EUR"
    due_date := some "2024-01-10"
    processing_status := some "PAID"
    payment_intent_id := some "pi_1"
    last_updated := some "T1"
    payment_succeeded_at := some "T1" }

/-- A RECEIVED invoice that already carries a payment reference. -/
def invReused : Invoice :=
  { processed_invoice_uuid := "inv-2"
    vendor_name := some "Acme"
    invoice_id := some "A-2"
    total_amount := some "10.00"
    currency := some "USD"
    due_date := some "2024-01-10"
    processing_status := some "RECEIVED"
    payment_intent_id := some "pi_old" }

/-- A RECEIVED invoice with no `total_amount` attribute. -/
def invNoAmt : Invoice :=
  { processed_invoice_uuid := "inv-4"
    vendor_name := some "Acme"
    invoice_id := some "A-4"
    due_date := some "2024-01-10"
    processing_status := some "RECEIVED" }

/-- A RECEIVED invoice eligible for the urgent pass on 2024-01-10. -/
def invEligible : Invoice :=
  { processed_invoice_uuid := "inv-8"
    vendor_name := some "Acme"
    invoice_id := some "A-8"
    total_amount := some "25.00"
    currency := some "USD"
    due_date := some "2024-01-10"
    processing_status := some "RECEIVED" }

/-- A gateway that accepts every request and assigns the reference
`pi_new`. -/
def gwOk : GatewayReq → PaymentResult := fun _ =>
  { success := true, payment_intent_id := some "pi_new", status := some "processing" }

/-- A store in which every `update_item` succeeds. -/
def wrAll : String → Bool := fun _ => true

/-- A scheduler run in which both selection queries raise a
`ClientError`. -/
def eBothFail : SchedEnv :=
  { gw := gwOk, wr := wrAll, urgentQueryOk := false, batchQueryOk := false }

/-- A scheduler run with a healthy store and the all-accepting
gateway. -/
def e0 : SchedEnv :=
  { gw := gwOk, wr := wrAll, urgentQueryOk := true, batchQueryOk := true }

/-- A gateway that declines exactly the requests for record `inv-b`. -/
def gwFailB : GatewayReq → PaymentResult := fun r =>
  if r.processed_invoice_uuid == "inv-b" then
    { success := false, error_message := some "Your card was declined." }
  else
    { success := true, payment_intent_id := some "pi_new"
      status := some "processing" }

/-- A scheduler run with a healthy store in which exactly the gateway
call for `inv-b` fails. -/
def eOneFail : SchedEnv :=
  { gw := gwFailB, wr := wrAll, urgentQueryOk := true, batchQueryOk := true }

/-- Three RECEIVED invoices due on 2024-01-10. -/
def invA : Invoice :=
  { processed_invoice_uuid := "inv-a"
    vendor_name := some "Acme"
    invoice_id := some "A-10"
    total_amount := some "12.00"
    currency := some "USD"
    due_date := some "2024-01-10"
    processing_status := some "RECEIVED" }

/-- Second of the three urgent invoices; its gateway call fails under
`gwFailB`. -/
def invB : Invoice :=
  { processed_invoice_uuid := "inv-b"
    vendor_name := some "Bolt"
    invoice_id := some "B-11"
    total_amount := some "34.50"
    currency := some "USD"
    due_date := some "2024-01-10"
    processing_status := some "RECEIVED" }

/-- Third of the three urgent invoices. -/
def invC : Invoice :=
  { processed_invoice_uuid := "inv-c"
    vendor_name := some "Cogs"
    invoice_id := some "C-12"
    total_amount := some "7.77"
    currency := some "USD"
    due_date := some "2024-01-10"
    processing_status := some "RECEIVED" }

/-- A RECEIVED invoice due later in the batch window. -/
def invBatch : Invoice :=
  { processed_invoice_uuid := "inv-w"
    vendor_name := some "Wren"
    invoice_id := some "W-13"
    total_amount := some "99.00"
    currency := some "USD"
    due_date := some "2024-01-12"
    processing_status := some "RECEIVED" }

/-- The table of the three urgent invoices. -/
def tableC5 : List Invoice := [invA, invB, invC]

/-- A verified `payment_intent.succeeded` event for `pi_z`. -/
def evPaid : StripeEvent :=
  { type := "payment_intent.succeeded", payment_intent_id := "pi_z" }

/-- A verified `payment_intent.succeeded` event for `pi_x`. -/
def evX : StripeEvent :=
  { type := "payment_intent.succeeded", payment_intent_id := "pi_x" }

/-- A Stripe verifier that accepts everything as `evPaid`. -/
def c0 : String → String → String → Option StripeEvent :=
  fun _ _ _ => some evPaid

/-- A Stripe verifier that accepts everything as `evX`. -/
def cX : String → String → String → Option StripeEvent :=
  fun _ _ _ => some evX

/-- A Stripe verifier that rejects every payload. -/
def cNone : String → String → String → Option StripeEvent :=
  fun _ _ _ => none

/-- Headers without a signature. -/
def hdrs0 : List (String × String) := [("Content-Type", "application/json")]

/-- Headers carrying a signature (mixed-case header name, as sent by
API Gateway). -/
def hdrs1 : List (String × String) := [("Stripe-Signature", "sigX")]

/-! Theorems.  First, characterisation lemmas for the per-record
processing step and preservation lemmas for the table updates. -/

/-- The result dict of `_process_single_payment` as a pure function of
the invoice and the gateway answer (it does not depend on the table or
on the store's write outcome). -/
theorem single_fst (gw : GatewayReq → PaymentResult) (wr : String → Bool)
    (urgent : Bool) (ts : String) (t : List Invoice) (i : Invoice) :
    (process_single_payment gw wr urgent ts t i).1 =
      (if truthy i.total_amount then
        (if (gw (mkReq urgent i)).success then
          { success := true
            payment_intent_id := (gw (mkReq urgent i)).payment_intent_id
            invoice_uuid := some i.processed_invoice_uuid }
        else
          { success := false
            error := some ("Stripe payment failed for " ++
              i.processed_invoice_uuid ++ ": " ++
              (gw (mkReq urgent i)).error_message.getD "None") })
      else
        { success := false
          error := some ("Missing total_amount for invoice " ++
            i.processed_invoice_uuid) }) := by
  unfold process_single_payment
  cases h : truthy i.total_amount with
  | false => simp [h]
  | true =>
    cases hs : (gw (mkReq urgent i)).success <;> simp [h, hs]

/-- The gateway requests issued by `_process_single_payment`: exactly
one when the amount is present, none otherwise. -/
theorem single_calls (gw : GatewayReq → PaymentResult) (wr : String → Bool)
    (urgent : Bool) (ts : String) (t : List Invoice) (i : Invoice) :
    (process_single_payment gw wr urgent ts t i).2.2 =
      (if truthy i.total_amount then [mkReq urgent i] else []) := by
  unfold process_single_payment
  cases h : truthy i.total_amount with
  | false => simp [h]
  | true =>
    cases hs : (gw (mkReq urgent i)).success <;> simp [h, hs]

/-- The table produced by `_process_single_payment`: the status write
of the observed outcome when the amount is present, the unchanged table
otherwise. -/
theorem single_table (gw : GatewayReq → PaymentResult) (wr : String → Bool)
    (urgent : Bool) (ts : String) (t : List Invoice) (i : Invoice) :
    (process_single_payment gw wr urgent ts t i).2.1 =
      (if truthy i.total_amount then
        (if (gw (mkReq urgent i)).success then
          (sched_update_invoice_status wr t i.processed_invoice_uuid
            "PAYMENT_INITIATED" (gw (mkReq urgent i)).payment_intent_id
            none ts).2
        else
          (sched_update_invoice_status wr t i.processed_invoice_uuid
            "PAYMENT_FAILED" none (gw (mkReq urgent i)).error_message ts).2)
      else t) := by
  unfold process_single_payment
  cases h : truthy i.total_amount with
  | false => simp [h]
  | true =>
    cases hs : (gw (mkReq urgent i)).success <;> simp [h, hs]

/-- `schedSet` touches neither the primary key nor the due date. -/
theorem schedSet_keyDue (st ts : String) (pid err : Option String)
    (i : Invoice) : keyDue (schedSet st ts pid err i) = keyDue i := rfl

/-- `paidSet` touches neither the primary key nor the due date. -/
theorem paidSet_keyDue (ts : String) (i : Invoice) :
    keyDue (paidSet ts i) = keyDue i := rfl

/-- A key present in the table makes the `any` existence test of
`updateItem` succeed. -/
theorem any_key_of_mem {t : List Invoice} {u : String}
    (h : u ∈ t.map Invoice.processed_invoice_uuid) :
    t.any (fun i => i.processed_invoice_uuid == u) = true := by
  obtain ⟨i, hi, rfl⟩ := List.mem_map.1 h
  simp only [List.any_eq_true]
  exact ⟨i, hi, by simp⟩

/-- Mapping a key-preserving SET over the table preserves the list of
(key, due date) pairs. -/
theorem map_keyDue_set (t : List Invoice) (u : String) (f : Invoice → Invoice)
    (hf : ∀ i, keyDue (f i) = keyDue i) :
    ((t.map (fun i => if i.processed_invoice_uuid == u then f i else i)).map
      keyDue) = t.map keyDue := by
  induction t with
  | nil => rfl
  | cons a t ih =>
    simp only [List.map_cons, ih]
    congr 1
    by_cases h : a.processed_invoice_uuid == u
    · simp [h, hf]
    · simp [h]

/-- `updateItem` on a key present in the table preserves the list of
(key, due date) pairs, for a SET that preserves them. -/
theorem updateItem_keyDue {t : List Invoice} {u : String}
    {f : Invoice → Invoice} (hf : ∀ i, keyDue (f i) = keyDue i)
    (hu : u ∈ t.map Invoice.processed_invoice_uuid) :
    (updateItem t u f).map keyDue = t.map keyDue := by
  unfold updateItem
  rw [if_pos (any_key_of_mem hu)]
  exact map_keyDue_set t u f hf

/-- The scheduler's status writer preserves the (key, due date) pairs
when the written key is present. -/
theorem sched_update_keyDue (wr : String → Bool) (t : List Invoice)
    (u st : String) (pid err : Option String) (ts : String)
    (hu : u ∈ t.map Invoice.processed_invoice_uuid) :
    ((sched_update_invoice_status wr t u st pid err ts).2).map keyDue =
      t.map keyDue := by
  unfold sched_update_invoice_status
  split
  · exact updateItem_keyDue (fun i => schedSet_keyDue st ts pid err i) hu
  · rfl

/-- The uuid column is the first component of the (key, due date)
column. -/
theorem map_uuid_eq_fst_keyDue (t : List Invoice) :
    t.map Invoice.processed_invoice_uuid = (t.map keyDue).map Prod.fst := by
  rw [List.map_map]
  rfl

/-- The processing loop preserves the (key, due date) pairs of the
table, provided every processed key is present in the table. -/
theorem processList_keyDue (gw : GatewayReq → PaymentResult)
    (wr : String → Bool) (urgent : Bool) (ts : String) :
    ∀ (invs : List Invoice) (t : List Invoice),
      (∀ i ∈ invs, i.processed_invoice_uuid ∈
        t.map Invoice.processed_invoice_uuid) →
      ((processList gw wr urgent ts invs t).2.1).map keyDue =
        t.map keyDue := by
  intro invs
  induction invs with
  | nil => intro t _; rfl
  | cons a rest ih =>
    intro t hsub
    have hkey : (process_single_payment gw wr urgent ts t a).2.1.map keyDue =
        t.map keyDue := by
      rw [single_table]
      have ha := hsub a (List.mem_cons_self a rest)
      split
      · split
        · exact sched_update_keyDue wr t a.processed_invoice_uuid
            "PAYMENT_INITIATED" _ none ts ha
        · exact sched_update_keyDue wr t a.processed_invoice_uuid
            "PAYMENT_FAILED" none _ ts ha
      · rfl
    have huuid : (process_single_payment gw wr urgent ts t a).2.1.map
        Invoice.processed_invoice_uuid = t.map Invoice.processed_invoice_uuid := by
      rw [map_uuid_eq_fst_keyDue, hkey, ← map_uuid_eq_fst_keyDue]
    simp only [processList]
    rw [ih _ (fun i hi => by rw [huuid]; exact hsub i (List.mem_cons_of_mem a hi))]
    exact hkey

/-- The counters of a pass are a pure function of the selected invoices
and the gateway: `processed` counts every selected record, `successful`
those accepted, `failed` the rest. -/
theorem processList_counts (gw : GatewayReq → PaymentResult)
    (wr : String → Bool) (urgent : Bool) (ts : String) :
    ∀ (invs : List Invoice) (t : List Invoice),
      (processList gw wr urgent ts invs t).1.processed = invs.length ∧
      (processList gw wr urgent ts invs t).1.successful =
        (invs.filter (succPred gw urgent)).length ∧
      (processList gw wr urgent ts invs t).1.failed =
        (invs.filter (fun i => !succPred gw urgent i)).length := by
  intro invs
  induction invs with
  | nil => intro t; exact ⟨rfl, rfl, rfl⟩
  | cons a rest ih =>
    intro t
    have hs : (process_single_payment gw wr urgent ts t a).1.success =
        succPred gw urgent a := by
      rw [single_fst]
      unfold succPred
      cases h : truthy a.total_amount with
      | false => simp [h]
      | true => cases hg : (gw (mkReq urgent a)).success <;> simp [h, hg]
    obtain ⟨ih1, ih2, ih3⟩ :=
      ih (process_single_payment gw wr urgent ts t a).2.1
    simp only [processList, addOutcome, hs]
    cases h : succPred gw urgent a <;>
      simp [h, ih1, ih2, ih3, List.filter_cons, Nat.add_comm]

/-- The counters and the issued gateway requests of a pass do not
depend on the incoming table or on the store's write outcomes — a
failed status write is invisible in the pass result (isolation). -/
theorem processList_indep (gw : GatewayReq → PaymentResult)
    (wr wr' : String → Bool) (urgent : Bool) (ts : String) :
    ∀ (invs : List Invoice) (t t' : List Invoice),
      (processList gw wr urgent ts invs t).1 =
        (processList gw wr' urgent ts invs t').1 ∧
      (processList gw wr urgent ts invs t).2.2 =
        (processList gw wr' urgent ts invs t').2.2 := by
  intro invs
  induction invs with
  | nil => intro t t'; exact ⟨rfl, rfl⟩
  | cons a rest ih =>
    intro t t'
    obtain ⟨ih1, ih2⟩ := ih (process_single_payment gw wr urgent ts t a).2.1
      (process_single_payment gw wr' urgent ts t' a).2.1
    have h1 : (process_single_payment gw wr urgent ts t a).1 =
        (process_single_payment gw wr' urgent ts t' a).1 := by
      rw [single_fst, single_fst]
    have h2 : (process_single_payment gw wr urgent ts t a).2.2 =
        (process_single_payment gw wr' urgent ts t' a).2.2 := by
      rw [single_calls, single_calls]
    refine ⟨?_, ?_⟩
    · simp only [processList]
      rw [h1, ih1]
    · simp only [processList]
      rw [h2, ih2]

/-- An item whose key differs from the written key survives
`updateItem` unchanged. -/
theorem mem_updateItem_of_ne {t : List Invoice} {u : String}
    {f : Invoice → Invoice} {j : Invoice} (hj : j ∈ t)
    (hne : j.processed_invoice_uuid ≠ u) : j ∈ updateItem t u f := by
  unfold updateItem
  split
  · exact List.mem_map.2 ⟨j, hj, by simp [hne]⟩
  · exact List.mem_append_left _ hj

/-- An item whose key differs from the written key survives the
scheduler's status writer unchanged. -/
theorem mem_sched_update_of_ne (wr : String → Bool) (t : List Invoice)
    (u st : String) (pid err : Option String) (ts : String) {j : Invoice}
    (hj : j ∈ t) (hne : j.processed_invoice_uuid ≠ u) :
    j ∈ (sched_update_invoice_status wr t u st pid err ts).2 := by
  unfold sched_update_invoice_status
  split
  · exact mem_updateItem_of_ne hj hne
  · exact hj

/-- An item whose key differs from the processed record's key survives
`_process_single_payment` unchanged. -/
theorem mem_single_of_ne (gw : GatewayReq → PaymentResult)
    (wr : String → Bool) (urgent : Bool) (ts : String) (t : List Invoice)
    (i : Invoice) {j : Invoice} (hj : j ∈ t)
    (hne : j.processed_invoice_uuid ≠ i.processed_invoice_uuid) :
    j ∈ (process_single_payment gw wr urgent ts t i).2.1 := by
  rw [single_table]
  split
  · split
    · exact mem_sched_update_of_ne wr t _ _ _ none ts hj hne
    · exact mem_sched_update_of_ne wr t _ _ none _ ts hj hne
  · exact hj

/-- An item whose key is processed by none of the selected records
survives the whole pass unchanged. -/
theorem mem_processList_of_ne (gw : GatewayReq → PaymentResult)
    (wr : String → Bool) (urgent : Bool) (ts : String) :
    ∀ (invs : List Invoice) (t : List Invoice) {j : Invoice}, j ∈ t →
      (∀ i ∈ invs, j.processed_invoice_uuid ≠ i.processed_invoice_uuid) →
      j ∈ (processList gw wr urgent ts invs t).2.1 := by
  intro invs
  induction invs with
  | nil => intro t j hj _; exact hj
  | cons a rest ih =>
    intro t j hj hne
    simp only [processList]
    exact ih _ (mem_single_of_ne gw wr urgent ts t a hj
        (hne a (List.mem_cons_self a rest)))
      (fun i hi => hne i (List.mem_cons_of_mem a hi))

/-- The key written with status `st` by the scheduler's writer is
present with that status afterwards, when the write succeeds and the
key was present. -/
theorem sched_update_writes (wr : String → Bool) (t : List Invoice)
    (u st : String) (pid err : Option String) (ts : String)
    (hw : wr u = true) {x : Invoice} (hx : x ∈ t)
    (hxu : x.processed_invoice_uuid = u) :
    schedSet st ts pid err x ∈
      (sched_update_invoice_status wr t u st pid err ts).2 := by
  unfold sched_update_invoice_status
  rw [if_pos hw]
  unfold updateItem
  rw [if_pos (any_key_of_mem (hxu ▸ List.mem_map_of_mem _ hx))]
  exact List.mem_map.2 ⟨x, hx, by simp [hxu]⟩

/-- After a pass over key-distinct records, every selected record whose
gateway call succeeded (and whose amount was present) is stored as
PAYMENT_INITIATED, provided its key was present and every store write
succeeds. -/
theorem processList_initiated (gw : GatewayReq → PaymentResult)
    (wr : String → Bool) (urgent : Bool) (ts : String) :
    ∀ (invs : List Invoice) (t : List Invoice),
      (∀ u, wr u = true) →
      (invs.map Invoice.processed_invoice_uuid).Nodup →
      (∀ i ∈ invs, ∃ x ∈ t,
        x.processed_invoice_uuid = i.processed_invoice_uuid) →
      ∀ i ∈ invs, truthy i.total_amount = true →
        (gw (mkReq urgent i)).success = true →
        ∃ j ∈ (processList gw wr urgent ts invs t).2.1,
          j.processed_invoice_uuid = i.processed_invoice_uuid ∧
          j.processing_status = some "PAYMENT_INITIATED" := by
  intro invs
  induction invs with
  | nil => intro t _ _ _ i hi; cases hi
  | cons a rest ih =>
    intro t hw hnd hsub i hi hamt hgw
    have hnd_tail : (rest.map Invoice.processed_invoice_uuid).Nodup :=
      (List.nodup_cons.1 hnd).2
    have ha_not : a.processed_invoice_uuid ∉
        rest.map Invoice.processed_invoice_uuid :=
      (List.nodup_cons.1 hnd).1
    rcases List.mem_cons.1 hi with rfl | hi_rest
    · obtain ⟨x, hx, hxu⟩ := hsub i (List.mem_cons_self i rest)
      have hmem : schedSet "PAYMENT_INITIATED" ts
          (gw (mkReq urgent i)).payment_intent_id none x ∈
          (process_single_payment gw wr urgent ts t i).2.1 := by
        rw [single_table, if_pos hamt, if_pos hgw]
        exact sched_update_writes wr t i.processed_invoice_uuid
          "PAYMENT_INITIATED" _ none ts (hw _) hx hxu
      refine ⟨schedSet "PAYMENT_INITIATED" ts
          (gw (mkReq urgent i)).payment_intent_id none x, ?_, hxu, rfl⟩
      simp only [processList]
      refine mem_processList_of_ne gw wr urgent ts rest _ hmem ?_
      intro b hb
      show x.processed_invoice_uuid ≠ b.processed_invoice_uuid
      rw [hxu]
      intro hEq
      exact ha_not (by
        rw [hEq]
        exact List.mem_map_of_mem Invoice.processed_invoice_uuid hb)
    · have hstep : ∀ b ∈ rest, ∃ x ∈
          (process_single_payment gw wr urgent ts t a).2.1,
          x.processed_invoice_uuid = b.processed_invoice_uuid := by
        intro b hb
        obtain ⟨x, hx, hxu⟩ := hsub b (List.mem_cons_of_mem a hb)
        have hbne : x.processed_invoice_uuid ≠ a.processed_invoice_uuid := by
          rw [hxu]
          intro hEq
          exact ha_not (by
            rw [← hEq]
            exact List.mem_map_of_mem Invoice.processed_invoice_uuid hb)
        exact ⟨x, mem_single_of_ne gw wr urgent ts t a hx hbne, hxu⟩
      simp only [processList]
      exact ih _ hw hnd_tail hstep i hi_rest hamt hgw

/-- In a list of pairs with distinct first components, the first
component determines the second. -/
theorem nodup_fst_mem_eq {α β : Type} :
    ∀ {l : List (α × β)} {a : α} {b c : β},
      (l.map Prod.fst).Nodup → (a, b) ∈ l → (a, c) ∈ l → b = c := by
  intro l
  induction l with
  | nil => intro a b c _ hb; cases hb
  | cons p rest ih =>
    intro a b c hnd hb hc
    rw [List.map_cons] at hnd
    have h1 : p.1 ∉ rest.map Prod.fst := (List.nodup_cons.1 hnd).1
    have h2 : (rest.map Prod.fst).Nodup := (List.nodup_cons.1 hnd).2
    rcases List.mem_cons.1 hb with hbp | hb'
    · rcases List.mem_cons.1 hc with hcp | hc'
      · exact (Prod.ext_iff.1 (hbp.trans hcp.symm)).2
      · exfalso
        apply h1
        have hpa : p.1 = a := by rw [← hbp]
        rw [hpa]
        simpa using List.mem_map_of_mem Prod.fst hc'
    · rcases List.mem_cons.1 hc with hcp | hc'
      · exfalso
        apply h1
        have hpa : p.1 = a := by rw [← hcp]
        rw [hpa]
        simpa using List.mem_map_of_mem Prod.fst hb'
      · exact ih h2 hb' hc'

/-- The keys of the gateway requests a pass issues form a sublist of
the keys of the selected records: at most one request per selected
record. -/
theorem processList_calls_sublist (gw : GatewayReq → PaymentResult)
    (wr : String → Bool) (urgent : Bool) (ts : String) :
    ∀ (invs t : List Invoice),
      List.Sublist
        ((processList gw wr urgent ts invs t).2.2.map
          GatewayReq.processed_invoice_uuid)
        (invs.map Invoice.processed_invoice_uuid) := by
  intro invs
  induction invs with
  | nil => intro t; simp [processList]
  | cons a rest ih =>
    intro t
    simp only [processList, List.map_append, List.map_cons]
    rw [single_calls]
    split
    · simp only [List.map_cons, List.map_nil, List.singleton_append]
      exact List.Sublist.cons₂ _ (ih _)
    · simp only [List.map_nil, List.nil_append]
      exact List.Sublist.cons _ (ih _)

/-- The equality-key query returns a sublist of the table. -/
theorem queryEq_sublist (t : List Invoice) (s d : String) (ok : Bool) :
    List.Sublist (queryEq t s d ok) t := by
  unfold queryEq
  split
  · exact List.filter_sublist t
  · exact List.nil_sublist t

/-- The range query returns a sublist of the table. -/
theorem queryRange_sublist (t : List Invoice) (s d1 d2 : String) (ok : Bool) :
    List.Sublist (queryRange t s d1 d2 ok) t := by
  unfold queryRange
  split
  · exact List.filter_sublist t
  · exact List.nil_sublist t

/-- Every record returned by the equality-key query has exactly the
queried due date. -/
theorem due_of_mem_queryEq {t : List Invoice} {s d : String} {ok : Bool}
    {i : Invoice} (h : i ∈ queryEq t s d ok) : i.due_date = some d := by
  unfold queryEq at h
  split at h
  · have hp := (List.mem_filter.1 h).2
    rw [Bool.and_eq_true] at hp
    exact eq_of_beq hp.2
  · cases h

/-- C3: dedup across the two passes.  With a single `today` for the
whole cycle and key-distinct records, (a) every record of the batch
query that is due today is excluded from the batch work list, (b) the
keys attempted by the urgent pass and by the batch pass are jointly
distinct, and (c) the gateway requests of the whole cycle carry
pairwise distinct record keys — no record receives more than one
payment attempt in one cycle, for any window end (hence for every
window length ≥ 0). -/
theorem C3_no_double_attempt_in_cycle (e : SchedEnv) (today endD ts : String)
    (table : List Invoice)
    (hnd : (table.map Invoice.processed_invoice_uuid).Nodup) :
    (∀ i ∈ batchQueryResult e
        (process_urgent_payments e today ts table).2.1 today endD,
      i.due_date = some today →
      i ∉ batchWork e (process_urgent_payments e today ts table).2.1
            today endD) ∧
    ((urgentSelection e table today).map Invoice.processed_invoice_uuid ++
      (batchWork e (process_urgent_payments e today ts table).2.1
        today endD).map Invoice.processed_invoice_uuid).Nodup ∧
    ((run_payment_cycle e today today endD ts table).2.2.map
      GatewayReq.processed_invoice_uuid).Nodup := by
  have hsubU : ∀ i ∈ urgentSelection e table today,
      i.processed_invoice_uuid ∈ table.map Invoice.processed_invoice_uuid :=
    fun i hi => List.mem_map_of_mem _ ((queryEq_sublist _ _ _ _).subset hi)
  have hkeys : ((process_urgent_payments e today ts table).2.1).map keyDue =
      table.map keyDue :=
    processList_keyDue e.gw e.wr true ts _ table hsubU
  have huuid1 : ((process_urgent_payments e today ts table).2.1).map
      Invoice.processed_invoice_uuid =
      table.map Invoice.processed_invoice_uuid := by
    rw [map_uuid_eq_fst_keyDue, hkeys, ← map_uuid_eq_fst_keyDue]
  have hUuuid : ((urgentSelection e table today).map
      Invoice.processed_invoice_uuid).Nodup :=
    List.Nodup.sublist ((queryEq_sublist _ _ _ _).map _) hnd
  have hBsub : List.Sublist
      (batchWork e (process_urgent_payments e today ts table).2.1 today endD)
      ((process_urgent_payments e today ts table).2.1) :=
    (List.filter_sublist _).trans (queryRange_sublist _ _ _ _ _)
  have hBuuid : ((batchWork e (process_urgent_payments e today ts table).2.1
      today endD).map Invoice.processed_invoice_uuid).Nodup := by
    refine List.Nodup.sublist (hBsub.map _) ?_
    rw [huuid1]
    exact hnd
  have hdisj : ∀ u, u ∈ (urgentSelection e table today).map
        Invoice.processed_invoice_uuid →
      u ∉ (batchWork e (process_urgent_payments e today ts table).2.1
        today endD).map Invoice.processed_invoice_uuid := by
    intro u hU hB
    obtain ⟨i, hiU, hiu⟩ := List.mem_map.1 hU
    obtain ⟨j, hjB, hju⟩ := List.mem_map.1 hB
    have hidue : i.due_date = some today := due_of_mem_queryEq hiU
    have hjdue : j.due_date ≠ some today := by
      have := (List.mem_filter.1 hjB).2
      simpa using this
    have hiT : i ∈ table := (queryEq_sublist _ _ _ _).subset hiU
    have hjT1 : j ∈ (process_urgent_payments e today ts table).2.1 :=
      hBsub.subset hjB
    have hiP : (u, some today) ∈ table.map keyDue := by
      refine List.mem_map.2 ⟨i, hiT, ?_⟩
      unfold keyDue
      rw [hiu, hidue]
    have hjP : (u, j.due_date) ∈ table.map keyDue := by
      rw [← hkeys]
      refine List.mem_map.2 ⟨j, hjT1, ?_⟩
      unfold keyDue
      rw [hju]
    have hfst : ((table.map keyDue).map Prod.fst).Nodup := by
      rw [← map_uuid_eq_fst_keyDue]
      exact hnd
    exact hjdue (nodup_fst_mem_eq hfst hjP hiP)
  refine ⟨?_, ?_, ?_⟩
  · intro i _ hdue hmemB
    have := (List.mem_filter.1 hmemB).2
    rw [hdue] at this
    simp at this
  · exact List.Nodup.append hUuuid hBuuid hdisj
  · have hcalls : (run_payment_cycle e today today endD ts table).2.2 =
        (process_urgent_payments e today ts table).2.2 ++
        (process_batch_payments e today endD ts
          (process_urgent_payments e today ts table).2.1).2.2 := rfl
    rw [hcalls, List.map_append]
    refine List.Nodup.sublist
      (List.Sublist.append
        (processList_calls_sublist e.gw e.wr true ts _ table)
        (processList_calls_sublist e.gw e.wr false ts _ _))
      (List.Nodup.append hUuuid hBuuid hdisj)

/-- Splitting a list by a boolean predicate preserves its length. -/
theorem length_filter_add_length_filter_not {α : Type} (l : List α)
    (p : α → Bool) :
    (l.filter p).length + (l.filter (fun a => !p a)).length = l.length := by
  induction l with
  | nil => rfl
  | cons a l ih =>
    cases h : p a <;> simp [List.filter_cons, h, ← ih] <;> omega

/-- Every gateway request issued by a pass comes from a selected record
with a present amount, and is exactly the request the code builds for
that record. -/
theorem mem_processList_calls (gw : GatewayReq → PaymentResult)
    (wr : String → Bool) (urgent : Bool) (ts : String) :
    ∀ (invs t : List Invoice) (r : GatewayReq),
      r ∈ (processList gw wr urgent ts invs t).2.2 →
      ∃ b ∈ invs, truthy b.total_amount = true ∧ r = mkReq urgent b := by
  intro invs
  induction invs with
  | nil => intro t r hr; cases hr
  | cons a rest ih =>
    intro t r hr
    simp only [processList] at hr
    rcases List.mem_append.1 hr with hl | hrr
    · rw [single_calls] at hl
      by_cases ha : truthy a.total_amount
      · rw [if_pos ha] at hl
        rcases List.mem_singleton.1 hl with rfl
        exact ⟨a, List.mem_cons_self a rest, ha, rfl⟩
      · rw [if_neg ha] at hl
        cases hl
    · obtain ⟨b, hb, hbt, hbr⟩ := ih _ r hrr
      exact ⟨b, List.mem_cons_of_mem a hb, hbt, hbr⟩

/-- The image of the written key under the SET expression is present
after `updateItem`, when the key was present. -/
theorem mem_updateItem_write {t : List Invoice} {u : String}
    {f : Invoice → Invoice} {x : Invoice} (hx : x ∈ t)
    (hxu : x.processed_invoice_uuid = u) : f x ∈ updateItem t u f := by
  unfold updateItem
  rw [if_pos (any_key_of_mem (hxu ▸ List.mem_map_of_mem _ hx))]
  exact List.mem_map.2 ⟨x, hx, by simp [hxu]⟩

/-- C5: isolation of a single gateway failure.  If every record selected
by the urgent pass has an amount, all store writes succeed, and exactly
one selected record's gateway call fails, then the pass still processes
every selected record, reports exactly one failure and
`N - 1` successes, and every record whose gateway call succeeded is
stored as PAYMENT_INITIATED. -/
theorem C5_single_gateway_failure_isolated (e : SchedEnv)
    (today ts : String) (table : List Invoice)
    (hnd : (table.map Invoice.processed_invoice_uuid).Nodup)
    (hw : ∀ u, e.wr u = true)
    (hamt : ∀ i ∈ urgentSelection e table today,
      truthy i.total_amount = true)
    (hfail : ((urgentSelection e table today).filter
        (fun i => !(e.gw (mkReq true i)).success)).length = 1) :
    (process_urgent_payments e today ts table).1.processed =
      (urgentSelection e table today).length ∧
    (process_urgent_payments e today ts table).1.failed = 1 ∧
    (process_urgent_payments e today ts table).1.successful =
      (urgentSelection e table today).length - 1 ∧
    ∀ i ∈ urgentSelection e table today,
      (e.gw (mkReq true i)).success = true →
      ∃ j ∈ (process_urgent_payments e today ts table).2.1,
        j.processed_invoice_uuid = i.processed_invoice_uuid ∧
        j.processing_status = some "PAYMENT_INITIATED" := by
  unfold process_urgent_payments
  obtain ⟨h1, h2, h3⟩ :=
    processList_counts e.gw e.wr true ts (urgentSelection e table today) table
  have hfilt : (urgentSelection e table today).filter
      (fun i => !succPred e.gw true i) =
      (urgentSelection e table today).filter
        (fun i => !(e.gw (mkReq true i)).success) := by
    apply List.filter_congr
    intro i hi
    unfold succPred
    rw [hamt i hi]
    rfl
  have hfailed : (processList e.gw e.wr true ts
      (urgentSelection e table today) table).1.failed = 1 := by
    rw [h3, hfilt, hfail]
  have hsucc : (processList e.gw e.wr true ts
      (urgentSelection e table today) table).1.successful =
      (urgentSelection e table today).length - 1 := by
    rw [h2]
    have hsum := length_filter_add_length_filter_not
      (urgentSelection e table today) (succPred e.gw true)
    rw [hfilt, hfail] at hsum
    omega
  refine ⟨h1, hfailed, hsucc, ?_⟩
  intro i hi hgw
  exact processList_initiated e.gw e.wr true ts
    (urgentSelection e table today) table hw
    (List.Nodup.sublist ((queryEq_sublist _ _ _ _).map _) hnd)
    (fun b hb => ⟨b, (queryEq_sublist _ _ _ _).subset hb, rfl⟩)
    i hi (hamt i hi) hgw

/-- C8 (amended): per-record store failures are isolated — a pass's
counters, errors and gateway requests do not depend on the write
oracle or on the incoming table — while a failed selection query is
swallowed: with both selection queries failing, the cycle completes
silently with zero processed records, zero failures, empty error
lists, an unchanged table and no gateway calls, instead of reporting a
cycle-level failure. -/
theorem C8_isolation_and_silent_query_failure :
    (∀ (gw : GatewayReq → PaymentResult) (wr wr' : String → Bool)
      (urgent : Bool) (ts : String) (invs t t' : List Invoice),
      (processList gw wr urgent ts invs t).1 =
        (processList gw wr' urgent ts invs t').1 ∧
      (processList gw wr urgent ts invs t).2.2 =
        (processList gw wr' urgent ts invs t').2.2) ∧
    (∀ (e : SchedEnv) (todayU todayB endD ts : String)
      (table : List Invoice),
      e.urgentQueryOk = false → e.batchQueryOk = false →
      (run_payment_cycle e todayU todayB endD ts table).1.total_processed = 0 ∧
      (run_payment_cycle e todayU todayB endD ts table).1.total_failed = 0 ∧
      (run_payment_cycle e todayU todayB endD ts table).1.urgent.errors = [] ∧
      (run_payment_cycle e todayU todayB endD ts table).1.batch.errors = [] ∧
      (run_payment_cycle e todayU todayB endD ts table).2.1 = table ∧
      (run_payment_cycle e todayU todayB endD ts table).2.2 = []) := by
  constructor
  · intro gw wr wr' urgent ts invs t t'
    exact processList_indep gw wr wr' urgent ts invs t t'
  · intro e todayU todayB endD ts table hu hb
    simp [run_payment_cycle, process_urgent_payments, process_batch_payments,
      urgentSelection, batchWork, batchQueryResult, queryEq, queryRange,
      hu, hb, processList, emptyPass]

/-- C10: a successful gateway call is reported as a per-record success
even when the status write fails.  With a store whose every write
fails, the outcome dict still has `success = true` while the table is
left unchanged (the PAYMENT_INITIATED write was lost); in general the
per-record outcome is independent of the write oracle, whose boolean
result the caller discards. -/
theorem C10_write_failure_reported_as_success
    (gw : GatewayReq → PaymentResult) (urgent : Bool) (ts : String)
    (table : List Invoice) (i : Invoice)
    (hamt : truthy i.total_amount = true)
    (hgw : (gw (mkReq urgent i)).success = true) :
    (process_single_payment gw (fun _ => false) urgent ts table i).1.success
      = true ∧
    (process_single_payment gw (fun _ => false) urgent ts table i).2.1
      = table ∧
    ∀ wr wr' : String → Bool,
      (process_single_payment gw wr urgent ts table i).1 =
        (process_single_payment gw wr' urgent ts table i).1 := by
  refine ⟨?_, ?_, ?_⟩
  · rw [single_fst, if_pos hamt, if_pos hgw]
  · rw [single_table, if_pos hamt, if_pos hgw]
    unfold sched_update_invoice_status
    simp
  · intro wr wr'
    rw [single_fst, single_fst]

/-- Characterisation of the status updater on a healthy store when the
GSI query matches: the call succeeds and the first matching record's
key is written with the PAID SET expression. -/
theorem update_invoice_status_found {env : ReconEnv}
    (table : List Invoice) (pid ts : String) {r0 : Invoice}
    (h1 : env.tableNameSet = true) (h2 : env.queryOk = true)
    (h3 : env.updateOk = true)
    (hhead : (table.filter
      (fun i => i.payment_intent_id == some pid)).head? = some r0) :
    (update_invoice_status env table pid ts).1.success = true ∧
    (update_invoice_status env table pid ts).2.1 =
      updateItem table r0.processed_invoice_uuid (paidSet ts) := by
  unfold update_invoice_status
  rw [h1, h2, hhead, h3]
  exact ⟨rfl, rfl⟩

/-! Theorems for the claims. -/

/-- C1 (amended): neither status writer guards on the current status.
A PAID update against a record that is already PAID does not fail with
an `InvalidTransition` error and does not leave the record unmodified:
it succeeds again, the status stays PAID (so the status value itself is
idempotent) but `last_updated` and `payment_succeeded_at` are
overwritten with the second call's timestamp.  Likewise the scheduler's
writer applies any target status unconditionally. -/
theorem C1_amended_paid_update_reapplied (env : ReconEnv)
    (table : List Invoice) (pid ts ts' : String) (r0 : Invoice)
    (h1 : env.tableNameSet = true) (h2 : env.queryOk = true)
    (h3 : env.updateOk = true)
    (hhead : (table.filter
      (fun i => i.payment_intent_id == some pid)).head? = some r0) :
    (update_invoice_status env table pid ts).1.success = true ∧
    (update_invoice_status env (update_invoice_status env table pid ts).2.1
      pid ts').1.success = true ∧
    (∃ j ∈ (update_invoice_status env
        (update_invoice_status env table pid ts).2.1 pid ts').2.1,
      j.payment_intent_id = some pid ∧
      j.processing_status = some "PAID" ∧
      j.last_updated = some ts' ∧
      j.payment_succeeded_at = some ts') ∧
    ∀ (wr : String → Bool) (t : List Invoice) (u st : String)
      (pid' err : Option String) (ts2 : String), wr u = true →
      (sched_update_invoice_status wr t u st pid' err ts2).1 = true := by
  obtain ⟨hs1, ht1⟩ := update_invoice_status_found table pid ts h1 h2 h3 hhead
  have hr0mem : r0 ∈ table.filter (fun i => i.payment_intent_id == some pid) :=
    List.mem_of_mem_head? (by rw [hhead]; exact rfl)
  have hr0T : r0 ∈ table := List.mem_of_mem_filter hr0mem
  have hr0pid : r0.payment_intent_id = some pid :=
    eq_of_beq (List.mem_filter.1 hr0mem).2
  have hpaid : paidSet ts r0 ∈ (update_invoice_status env table pid ts).2.1 := by
    rw [ht1]
    exact mem_updateItem_write hr0T rfl
  have hpaidpid : (paidSet ts r0).payment_intent_id = some pid := hr0pid
  have hfilt1 : paidSet ts r0 ∈
      ((update_invoice_status env table pid ts).2.1).filter
        (fun i => i.payment_intent_id == some pid) :=
    List.mem_filter.2 ⟨hpaid, by rw [hpaidpid]; simp⟩
  cases hh2 : (((update_invoice_status env table pid ts).2.1).filter
      (fun i => i.payment_intent_id == some pid)).head? with
  | none =>
    exfalso
    rw [List.head?_eq_none_iff] at hh2
    rw [hh2] at hfilt1
    cases hfilt1
  | some r1 =>
    obtain ⟨hs2, ht2⟩ := update_invoice_status_found
      (update_invoice_status env table pid ts).2.1 pid ts' h1 h2 h3 hh2
    have hr1mem : r1 ∈ ((update_invoice_status env table pid ts).2.1).filter
        (fun i => i.payment_intent_id == some pid) :=
      List.mem_of_mem_head? (by rw [hh2]; exact rfl)
    have hr1T : r1 ∈ (update_invoice_status env table pid ts).2.1 :=
      List.mem_of_mem_filter hr1mem
    have hr1pid : r1.payment_intent_id = some pid :=
      eq_of_beq (List.mem_filter.1 hr1mem).2
    refine ⟨hs1, hs2, ⟨paidSet ts' r1, ?_, hr1pid, rfl, rfl, rfl⟩, ?_⟩
    · rw [ht2]
      exact mem_updateItem_write hr1T rfl
    · intro wr t u st pid' err ts2 hwu
      unfold sched_update_invoice_status
      rw [hwu]
      rfl

/-- C1 counterexample: the status updater has no transition guard.
Applying the PAID update to the already-PAID record `paidInv` succeeds
again (no `InvalidTransition` outcome exists in the code) and modifies
the record: `last_updated` is overwritten with the new timestamp. -/
theorem C1_paid_update_unguarded_cex :
    (update_invoice_status env0 [paidInv] "pi_1" "T2").1.success = true ∧
    (update_invoice_status env0 [paidInv] "pi_1" "T2").2.1 ≠ [paidInv] ∧
    ((update_invoice_status env0 [paidInv] "pi_1" "T2").2.1.map
        (fun i => i.last_updated)) = [some "T2"] ∧
    paidInv.last_updated = some "T1" ∧
    (some "T2" : Option String) ≠ some "T1" := by
  decide

/-- C2 counterexample: `_process_single_payment` performs no
existing-reference check.  On a RECEIVED invoice that already carries
`payment_intent_id = pi_old` it still issues a gateway request (no
short-circuit) and, on success, overwrites the stored reference with
the new `pi_new`. -/
theorem C2_reference_overwritten_cex :
    (process_single_payment gwOk wrAll true "T" [invReused] invReused).2.2 ≠ [] ∧
    ((process_single_payment gwOk wrAll true "T" [invReused] invReused).2.2.map
        (fun r => r.processed_invoice_uuid)) = ["inv-2"] ∧
    ((process_single_payment gwOk wrAll true "T" [invReused] invReused).2.1.map
        (fun i => i.payment_intent_id)) = [some "pi_new"] ∧
    invReused.payment_intent_id = some "pi_old" ∧
    (some "pi_new" : Option String) ≠ some "pi_old" := by
  decide

/-- C2 (amended): the payment path never checks for an existing
reference.  For every record with a present amount,
`_process_single_payment` issues exactly one gateway request whatever
`payment_intent_id` the record already carries (no short-circuit), and
on gateway success with a (truthy) new reference and a successful
write, the stored `payment_intent_id` of the record becomes the
gateway's new value — overwriting any previously stored reference.
The reference is protected only indirectly, because selection is
restricted to RECEIVED records. -/
theorem C2_amended_reference_not_protected
    (gw : GatewayReq → PaymentResult) (wr : String → Bool) (urgent : Bool)
    (ts : String) (table : List Invoice) (i : Invoice)
    (hamt : truthy i.total_amount = true) :
    (process_single_payment gw wr urgent ts table i).2.2 =
      [mkReq urgent i] ∧
    ((gw (mkReq urgent i)).success = true →
      truthy (gw (mkReq urgent i)).payment_intent_id = true →
      wr i.processed_invoice_uuid = true →
      i ∈ table →
      ∃ j ∈ (process_single_payment gw wr urgent ts table i).2.1,
        j.processed_invoice_uuid = i.processed_invoice_uuid ∧
        j.payment_intent_id = (gw (mkReq urgent i)).payment_intent_id) := by
  constructor
  · rw [single_calls, if_pos hamt]
  · intro hgw hpid hwu hmem
    have hj : schedSet "PAYMENT_INITIATED" ts
        (gw (mkReq urgent i)).payment_intent_id none i ∈
        (process_single_payment gw wr urgent ts table i).2.1 := by
      rw [single_table, if_pos hamt, if_pos hgw]
      exact sched_update_writes wr table i.processed_invoice_uuid
        "PAYMENT_INITIATED" _ none ts hwu hmem rfl
    refine ⟨_, hj, rfl, ?_⟩
    show (if truthy (gw (mkReq urgent i)).payment_intent_id then
      (gw (mkReq urgent i)).payment_intent_id else i.payment_intent_id) = _
    rw [if_pos hpid]

/-- C4 (amended): a selected record with a missing or empty amount is a
hard per-record failure that is recorded only in the pass counters: the
outcome is a failure with the missing-amount message, no gateway call
is made, and no store write happens — the record keeps its previous
status (it is NOT transitioned to PAYMENT_FAILED).  Moreover, in any
pass in which every selected record with that key lacks an amount, no
gateway request for that key is ever issued (no retry within the
cycle). -/
theorem C4_amended_missing_amount_not_recorded
    (gw : GatewayReq → PaymentResult) (wr : String → Bool) (urgent : Bool)
    (ts : String) (table : List Invoice) (i : Invoice)
    (hamt : truthy i.total_amount = false) :
    (process_single_payment gw wr urgent ts table i).1.success = false ∧
    (process_single_payment gw wr urgent ts table i).1.error =
      some ("Missing total_amount for invoice " ++
        i.processed_invoice_uuid) ∧
    (process_single_payment gw wr urgent ts table i).2.2 = [] ∧
    (process_single_payment gw wr urgent ts table i).2.1 = table ∧
    ∀ (invs t : List Invoice),
      (∀ b ∈ invs, b.processed_invoice_uuid = i.processed_invoice_uuid →
        truthy b.total_amount = false) →
      ∀ r ∈ (processList gw wr urgent ts invs t).2.2,
        r.processed_invoice_uuid ≠ i.processed_invoice_uuid := by
  have hneg : ¬ truthy i.total_amount = true := by rw [hamt]; simp
  refine ⟨?_, ?_, ?_, ?_, ?_⟩
  · rw [single_fst, if_neg hneg]
  · rw [single_fst, if_neg hneg]
  · rw [single_calls, if_neg hneg]
  · rw [single_table, if_neg hneg]
  · intro invs t hinvs r hr
    obtain ⟨b, hb, hbt, rfl⟩ := mem_processList_calls gw wr urgent ts invs t r hr
    show b.processed_invoice_uuid ≠ i.processed_invoice_uuid
    intro hEq
    rw [hinvs b hb hEq] at hbt
    cases hbt

/-- C4 counterexample: for a selected record with no amount the failure
is a hard per-record failure and no gateway call is made, but the
record is NOT transitioned to PAYMENT_FAILED: no store write happens at
all and its status stays RECEIVED. -/
theorem C4_missing_amount_no_write_cex :
    (process_single_payment gwOk wrAll true "T" [invNoAmt] invNoAmt).1.success = false ∧
    (process_single_payment gwOk wrAll true "T" [invNoAmt] invNoAmt).2.2 = [] ∧
    (process_single_payment gwOk wrAll true "T" [invNoAmt] invNoAmt).2.1 = [invNoAmt] ∧
    ((process_single_payment gwOk wrAll true "T" [invNoAmt] invNoAmt).2.1.map
        (fun i => i.processing_status)) = [some "RECEIVED"] ∧
    (some "RECEIVED" : Option String) ≠ some "PAYMENT_FAILED" := by
  decide

/-- C6: unverified webhooks are rejected before any record lookup.  A
request with a missing (or empty) signature header, or whose signature
fails verification, is answered with 400 with the table unchanged and
no store lookup performed; a verified `payment_intent.succeeded`
request that matches no record is answered with 200 — a distinct
outcome from the 400 rejection. -/
theorem C6_unverified_webhook_rejected_before_lookup
    (secret : Option String)
    (construct : String → String → String → Option StripeEvent)
    (env : ReconEnv) (headers : List (String × String)) (body : String)
    (table : List Invoice) (ts : String) :
    ((findSignature headers = none ∨ findSignature headers = some "") →
      (lambda_handler secret construct env headers body table ts).1.statusCode
        = 400 ∧
      (lambda_handler secret construct env headers body table ts).2.1 =
        table ∧
      (lambda_handler secret construct env headers body table ts).2.2 = []) ∧
    (∀ sig : String, findSignature headers = some sig →
      verify_webhook_signature secret construct body sig = none →
      (lambda_handler secret construct env headers body table ts).1.statusCode
        = 400 ∧
      (lambda_handler secret construct env headers body table ts).2.1 =
        table ∧
      (lambda_handler secret construct env headers body table ts).2.2 = []) ∧
    (∀ (sig : String) (ev : StripeEvent), findSignature headers = some sig →
      sig ≠ "" →
      verify_webhook_signature secret construct body sig = some ev →
      ev.type = "payment_intent.succeeded" →
      env.tableNameSet = true → env.queryOk = true →
      table.filter (fun i => i.payment_intent_id == some ev.payment_intent_id)
        = [] →
      (lambda_handler secret construct env headers body table ts).1.statusCode
        = 200 ∧
      (lambda_handler secret construct env headers body table ts).2.1 =
        table ∧
      (200 : Nat) ≠ 400) := by
  refine ⟨?_, ?_, ?_⟩
  · intro h
    unfold lambda_handler
    rcases h with h | h <;> rw [h]
    · exact ⟨rfl, rfl, rfl⟩
    · simp [String.isEmpty]
  · intro sig hsig hver
    unfold lambda_handler
    rw [hsig]
    cases he : sig.isEmpty with
    | true => simp [he]
    | false => simp [he, hver]
  · intro sig ev hsig hne hver htype h1 h2 hfilter
    have he : sig.isEmpty = false := by
      cases h : sig.isEmpty with
      | true => exact absurd ((String.isEmpty_iff sig).1 h) hne
      | false => rfl
    simp [lambda_handler, hsig, he, hver, process_webhook_event, htype,
      update_invoice_status, h1, h2, hfilter]

/-- C7: a verified confirmation that matches no stored record is a
reportable no-op.  The reconciler neither creates nor mutates any
record (the table is returned unchanged), reports the distinguished
no-match error internally, and the HTTP outcome for the caller is 200,
not an error. -/
theorem C7_no_match_is_reported_noop (env : ReconEnv)
    (table : List Invoice) (pid ts : String)
    (h1 : env.tableNameSet = true) (h2 : env.queryOk = true)
    (hfilter : table.filter (fun i => i.payment_intent_id == some pid) = []) :
    (update_invoice_status env table pid ts).2.1 = table ∧
    (update_invoice_status env table pid ts).1.success = false ∧
    (update_invoice_status env table pid ts).1.error =
      some ("No invoice found for payment_intent_id: " ++ pid) ∧
    ∀ (secret : Option String)
      (construct : String → String → String → Option StripeEvent)
      (headers : List (String × String)) (body sig : String)
      (ev : StripeEvent),
      findSignature headers = some sig → sig ≠ "" →
      verify_webhook_signature secret construct body sig = some ev →
      ev.type = "payment_intent.succeeded" →
      ev.payment_intent_id = pid →
      (lambda_handler secret construct env headers body table ts).1.statusCode
        = 200 ∧
      (lambda_handler secret construct env headers body table ts).2.1 =
        table := by
  have hbase : (update_invoice_status env table pid ts).2.1 = table ∧
      (update_invoice_status env table pid ts).1.success = false ∧
      (update_invoice_status env table pid ts).1.error =
        some ("No invoice found for payment_intent_id: " ++ pid) := by
    unfold update_invoice_status
    rw [h1, h2, hfilter]
    exact ⟨rfl, rfl, rfl⟩
  refine ⟨hbase.1, hbase.2.1, hbase.2.2, ?_⟩
  intro secret construct headers body sig ev hsig hne hver htype hpid
  have he : sig.isEmpty = false := by
    cases h : sig.isEmpty with
    | true => exact absurd ((String.isEmpty_iff sig).1 h) hne
    | false => rfl
  simp [lambda_handler, hsig, he, hver, process_webhook_event, htype, hpid,
    update_invoice_status, h1, h2, hfilter]

/-- C8 counterexample: when both selection queries fail, the cycle is
not reported as a cycle-level failure.  The `ClientError` is swallowed
inside the query helpers, each pass sees an empty selection, and the
cycle completes with zero processed records, zero failures and empty
error lists. -/
theorem C8_total_query_failure_silent_cex :
    (run_payment_cycle eBothFail "2024-01-10" "2024-01-10" "2024-01-17" "T"
        [invEligible]).1.total_processed = 0 ∧
    (run_payment_cycle eBothFail "2024-01-10" "2024-01-10" "2024-01-17" "T"
        [invEligible]).1.urgent.errors = [] ∧
    (run_payment_cycle eBothFail "2024-01-10" "2024-01-10" "2024-01-17" "T"
        [invEligible]).1.batch.errors = [] ∧
    (run_payment_cycle eBothFail "2024-01-10" "2024-01-10" "2024-01-17" "T"
        [invEligible]).1.total_failed = 0 ∧
    (run_payment_cycle eBothFail "2024-01-10" "2024-01-10" "2024-01-17" "T"
        [invEligible]).2.1 = [invEligible] ∧
    (run_payment_cycle eBothFail "2024-01-10" "2024-01-10" "2024-01-17" "T"
        [invEligible]).2.2 = [] ∧
    ¬((run_payment_cycle eBothFail "2024-01-10" "2024-01-10" "2024-01-17" "T"
          [invEligible]).1.urgent.errors ≠ [] ∨
      (run_payment_cycle eBothFail "2024-01-10" "2024-01-10" "2024-01-17" "T"
          [invEligible]).1.batch.errors ≠ []) := by
  decide

/-- C9: the conversion to cents goes through binary floating point and
is not exact.  For the amount string `0.29` (value 29/100, two fraction
digits), `amount_cents` — the model of `int(float(amount) * 100)` in
`create_payment_intent` — yields 28 cents, while 100 times the decimal
value is 29. -/
theorem C9_amount_cents_float_rounding_bug :
    parseDecimal "0.29" = some ((29 : ℚ) / 100) ∧
    amount_cents "0.29" = some 28 ∧
    (100 : ℚ) * (29 / 100) = 29 ∧
    (28 : ℤ) ≠ 29 := by
  refine ⟨by with_unfolding_all rfl, by with_unfolding_all rfl,
    by norm_num, by decide⟩

/-! Witnesses: each hypothesis-bearing claim theorem evaluated at a
concrete input. -/

/-- Witness for the amended C1 on the concrete already-PAID record. -/
theorem C1_amended_witness :
    ((([paidInv] : List Invoice).filter
      (fun i => i.payment_intent_id == some "pi_1")).head? = some paidInv) ∧
    (update_invoice_status env0 [paidInv] "pi_1" "T2").1.success = true ∧
    (update_invoice_status env0
      (update_invoice_status env0 [paidInv] "pi_1" "T2").2.1
      "pi_1" "T3").1.success = true ∧
    (∃ j ∈ (update_invoice_status env0
        (update_invoice_status env0 [paidInv] "pi_1" "T2").2.1
        "pi_1" "T3").2.1,
      j.payment_intent_id = some "pi_1" ∧
      j.processing_status = some "PAID" ∧
      j.last_updated = some "T3" ∧
      j.payment_succeeded_at = some "T3") ∧
    (sched_update_invoice_status wrAll [paidInv] "inv-1"
      "PAYMENT_INITIATED" none none "T4").1 = true := by
  obtain ⟨a, b, c, d⟩ := C1_amended_paid_update_reapplied env0 [paidInv]
    "pi_1" "T2" "T3" paidInv rfl rfl rfl (by decide)
  exact ⟨by decide, a, b, c, d wrAll [paidInv] "inv-1" "PAYMENT_INITIATED"
    none none "T4" rfl⟩

/-- Witness for the amended C2 on the record that already carries
`pi_old`. -/
theorem C2_amended_witness :
    (process_single_payment gwOk wrAll true "T" [invReused] invReused).2.2 =
      [mkReq true invReused] ∧
    ∃ j ∈ (process_single_payment gwOk wrAll true "T"
        [invReused] invReused).2.1,
      j.processed_invoice_uuid = invReused.processed_invoice_uuid ∧
      j.payment_intent_id =
        (gwOk (mkReq true invReused)).payment_intent_id := by
  obtain ⟨hcalls, himpl⟩ := C2_amended_reference_not_protected gwOk wrAll
    true "T" [invReused] invReused (by decide)
  exact ⟨hcalls, himpl rfl (by decide) rfl (List.mem_singleton.2 rfl)⟩

/-- Witness for C3 on a two-record table with one urgent and one
batch-window invoice. -/
theorem C3_witness :
    (([invEligible, invBatch].map Invoice.processed_invoice_uuid).Nodup) ∧
    ((∀ i ∈ batchQueryResult e0
        (process_urgent_payments e0 "2024-01-10" "T"
          [invEligible, invBatch]).2.1 "2024-01-10" "2024-01-17",
      i.due_date = some "2024-01-10" →
      i ∉ batchWork e0
        (process_urgent_payments e0 "2024-01-10" "T"
          [invEligible, invBatch]).2.1 "2024-01-10" "2024-01-17") ∧
    ((urgentSelection e0 [invEligible, invBatch] "2024-01-10").map
        Invoice.processed_invoice_uuid ++
      (batchWork e0
        (process_urgent_payments e0 "2024-01-10" "T"
          [invEligible, invBatch]).2.1 "2024-01-10" "2024-01-17").map
        Invoice.processed_invoice_uuid).Nodup ∧
    ((run_payment_cycle e0 "2024-01-10" "2024-01-10" "2024-01-17" "T"
        [invEligible, invBatch]).2.2.map
      GatewayReq.processed_invoice_uuid).Nodup) :=
  ⟨by decide, C3_no_double_attempt_in_cycle e0 "2024-01-10" "2024-01-17"
    "T" [invEligible, invBatch] (by decide)⟩

/-- Witness for the amended C4 on the concrete amount-less record. -/
theorem C4_amended_witness :
    (process_single_payment gwOk wrAll false "T" [invNoAmt]
      invNoAmt).1.success = false ∧
    (process_single_payment gwOk wrAll false "T" [invNoAmt]
      invNoAmt).1.error =
      some ("Missing total_amount for invoice " ++
        invNoAmt.processed_invoice_uuid) ∧
    (process_single_payment gwOk wrAll false "T" [invNoAmt]
      invNoAmt).2.2 = [] ∧
    (process_single_payment gwOk wrAll false "T" [invNoAmt]
      invNoAmt).2.1 = [invNoAmt] := by
  obtain ⟨a, b, c, d, _⟩ := C4_amended_missing_amount_not_recorded gwOk wrAll
    false "T" [invNoAmt] invNoAmt (by decide)
  exact ⟨a, b, c, d⟩

/-- Witness for C5 on a three-record urgent set whose middle record's
gateway call is declined. -/
theorem C5_witness :
    ((tableC5.map Invoice.processed_invoice_uuid).Nodup) ∧
    (((urgentSelection eOneFail tableC5 "2024-01-10").filter
        (fun i => !(eOneFail.gw (mkReq true i)).success)).length = 1) ∧
    (process_urgent_payments eOneFail "2024-01-10" "T" tableC5).1.processed =
      (urgentSelection eOneFail tableC5 "2024-01-10").length ∧
    (process_urgent_payments eOneFail "2024-01-10" "T" tableC5).1.failed
      = 1 ∧
    (process_urgent_payments eOneFail "2024-01-10" "T" tableC5).1.successful =
      (urgentSelection eOneFail tableC5 "2024-01-10").length - 1 ∧
    ∀ i ∈ urgentSelection eOneFail tableC5 "2024-01-10",
      (eOneFail.gw (mkReq true i)).success = true →
      ∃ j ∈ (process_urgent_payments eOneFail "2024-01-10" "T" tableC5).2.1,
        j.processed_invoice_uuid = i.processed_invoice_uuid ∧
        j.processing_status = some "PAYMENT_INITIATED" := by
  obtain ⟨a, b, c, d⟩ := C5_single_gateway_failure_isolated eOneFail
    "2024-01-10" "T" tableC5 (by decide) (fun u => rfl) (by decide) (by decide)
  exact ⟨by decide, by decide, a, b, c, d⟩

/-- Witness for C6: a missing header, a rejected signature, and a
verified no-match request, each on a concrete input. -/
theorem C6_witness :
    (lambda_handler (some "whsec") c0 env0 hdrs0 "payload" [] "T").1.statusCode
      = 400 ∧
    (lambda_handler (some "whsec") c0 env0 hdrs0 "payload" [] "T").2.1 = [] ∧
    (lambda_handler (some "whsec") c0 env0 hdrs0 "payload" [] "T").2.2 = [] ∧
    (lambda_handler (some "whsec") cNone env0 hdrs1 "payload" []
      "T").1.statusCode = 400 ∧
    (lambda_handler (some "whsec") cNone env0 hdrs1 "payload" [] "T").2.1
      = [] ∧
    (lambda_handler (some "whsec") cNone env0 hdrs1 "payload" [] "T").2.2
      = [] ∧
    (lambda_handler (some "whsec") c0 env0 hdrs1 "payload" [] "T").1.statusCode
      = 200 ∧
    (lambda_handler (some "whsec") c0 env0 hdrs1 "payload" [] "T").2.1 = [] ∧
    (200 : Nat) ≠ 400 := by
  obtain ⟨p1, _, _⟩ := C6_unverified_webhook_rejected_before_lookup
    (some "whsec") c0 env0 hdrs0 "payload" [] "T"
  obtain ⟨_, q2, _⟩ := C6_unverified_webhook_rejected_before_lookup
    (some "whsec") cNone env0 hdrs1 "payload" [] "T"
  obtain ⟨_, _, r3⟩ := C6_unverified_webhook_rejected_before_lookup
    (some "whsec") c0 env0 hdrs1 "payload" [] "T"
  obtain ⟨a1, a2, a3⟩ := p1 (Or.inl (by decide))
  obtain ⟨b1, b2, b3⟩ := q2 "sigX" (by decide) rfl
  obtain ⟨c1, c2, c3⟩ := r3 "sigX" evPaid (by decide) (by decide) rfl rfl
    rfl rfl rfl
  exact ⟨a1, a2, a3, b1, b2, b3, c1, c2, c3⟩

/-- Witness for C7: a verified confirmation for `pi_x` against a table
that stores only `pi_old`. -/
theorem C7_witness :
    (update_invoice_status env0 [invReused] "pi_x" "T").2.1 = [invReused] ∧
    (update_invoice_status env0 [invReused] "pi_x" "T").1.success = false ∧
    (update_invoice_status env0 [invReused] "pi_x" "T").1.error =
      some ("No invoice found for payment_intent_id: " ++ "pi_x") ∧
    (lambda_handler (some "whsec") cX env0 hdrs1 "payload" [invReused]
      "T").1.statusCode = 200 ∧
    (lambda_handler (some "whsec") cX env0 hdrs1 "payload" [invReused]
      "T").2.1 = [invReused] := by
  obtain ⟨a, b, c, d⟩ := C7_no_match_is_reported_noop env0 [invReused] "pi_x"
    "T" rfl rfl (by decide)
  obtain ⟨h200, htab⟩ := d (some "whsec") cX hdrs1 "payload" "sigX" evX
    (by decide) (by decide) rfl rfl rfl
  exact ⟨a, b, c, h200, htab⟩

/-- Witness for the amended C8 with both queries failing on a concrete
table, plus a concrete instance of write-failure isolation. -/
theorem C8_amended_witness :
    eBothFail.urgentQueryOk = false ∧ eBothFail.batchQueryOk = false ∧
    (run_payment_cycle eBothFail "2024-02-01" "2024-02-01" "2024-02-08" "T2"
      [invReused]).1.total_processed = 0 ∧
    (run_payment_cycle eBothFail "2024-02-01" "2024-02-01" "2024-02-08" "T2"
      [invReused]).1.total_failed = 0 ∧
    (run_payment_cycle eBothFail "2024-02-01" "2024-02-01" "2024-02-08" "T2"
      [invReused]).1.urgent.errors = [] ∧
    (run_payment_cycle eBothFail "2024-02-01" "2024-02-01" "2024-02-08" "T2"
      [invReused]).1.batch.errors = [] ∧
    (run_payment_cycle eBothFail "2024-02-01" "2024-02-01" "2024-02-08" "T2"
      [invReused]).2.1 = [invReused] ∧
    (run_payment_cycle eBothFail "2024-02-01" "2024-02-01" "2024-02-08" "T2"
      [invReused]).2.2 = [] ∧
    (processList gwOk wrAll true "T" [invEligible] [invEligible]).1 =
      (processList gwOk (fun _ => false) true "T" [invEligible] []).1 := by
  obtain ⟨pa, pb⟩ := C8_isolation_and_silent_query_failure
  obtain ⟨w1, w2, w3, w4, w5, w6⟩ := pb eBothFail "2024-02-01" "2024-02-01"
    "2024-02-08" "T2" [invReused] rfl rfl
  exact ⟨rfl, rfl, w1, w2, w3, w4, w5, w6,
    (pa gwOk wrAll (fun _ => false) true "T" [invEligible]
      [invEligible] []).1⟩

/-- Witness for C10 on a concrete record whose status write fails. -/
theorem C10_witness :
    (process_single_payment gwOk (fun _ => false) true "T" [invEligible]
      invEligible).1.success = true ∧
    (process_single_payment gwOk (fun _ => false) true "T" [invEligible]
      invEligible).2.1 = [invEligible] ∧
    (process_single_payment gwOk wrAll true "T" [invEligible]
        invEligible).1 =
      (process_single_payment gwOk (fun _ => false) true "T" [invEligible]
        invEligible).1 := by
  obtain ⟨a, b, c⟩ := C10_write_failure_reported_as_success gwOk true "T"
    [invEligible] invEligible (by decide) rfl
  exact ⟨a, b, c wrAll (fun _ => false)⟩

end BillBot
